import Mathlib

/-!
Shallow embedding of the Kenya elections dashboard (`app.py`).

The dashboard loads three static documents (election history, per-county
statistics with 2027 projections, county boundary geometries), reshapes them
per view, and renders them.  Python dictionaries are modelled as association
lists or structures with `Option`-valued fields; a direct subscript
`d['k']` that can raise `KeyError` is modelled by the `Option` itself (with
`none` standing for the raised error propagating out of the view), while the
permissive accessor `d.get('k', default)` is modelled by `Option.getD`.
Numbers are modelled as exact rationals.
-/

/-! ### Name Resolver (`app.py` 59-74) -/

/-- `COUNTY_NAME_MAP`: data county name -> GeoJSON county name. -/
def COUNTY_NAME_MAP : List (String × String) :=
  [("Elgeyo Marakwet", "Keiyo-Marakwet"), ("Tharaka Nithi", "Tharaka")]

/-- `GEOJSON_TO_DATA_MAP = {v: k for k, v in COUNTY_NAME_MAP.items()}`. -/
def GEOJSON_TO_DATA_MAP : List (String × String) :=
  COUNTY_NAME_MAP.map (fun p => (p.2, p.1))

/-- `COUNTY_NAME_MAP.get(data_name, data_name)`. -/
def get_geojson_name (data_name : String) : String :=
  (COUNTY_NAME_MAP.lookup data_name).getD data_name

/-- `GEOJSON_TO_DATA_MAP.get(geojson_name, geojson_name)`. -/
def get_data_name (geojson_name : String) : String :=
  (GEOJSON_TO_DATA_MAP.lookup geojson_name).getD geojson_name

/-! ### Data model: the three loaded documents -/

/-- One entry of `results_2017` in `county_data.json`; every key optional. -/
structure Results2017 where
  Kenyatta : Option ℚ
  Odinga : Option ℚ
  turnout : Option ℚ

/-- The `{}` default used by `county_info.get('results_2017', {})`. -/
def Results2017.empty : Results2017 := ⟨none, none, none⟩

/-- One entry of `results_2022` in `county_data.json`; every key optional. -/
structure Results2022 where
  Ruto : Option ℚ
  Odinga : Option ℚ
  turnout : Option ℚ

/-- The `{}` default used by `county_info.get('results_2022', {})`. -/
def Results2022.empty : Results2022 := ⟨none, none, none⟩

/-- One entry of `prediction_2027` in `county_data.json`; every key optional. -/
structure Prediction2027 where
  projected_voters : Option ℚ
  new_youth_voters : Option ℚ
  likely_turnout : Option ℚ
  swing_potential : Option String
  trend : Option String

/-- The `{}` default used by `county_info.get('prediction_2027', {})`. -/
def Prediction2027.empty : Prediction2027 := ⟨none, none, none, none, none⟩

/-- One county's record in `county_data.json['counties']`. -/
structure CountyRecord where
  population : Option ℚ
  registered_voters_2022 : Option ℚ
  youth_percentage : Option ℚ
  results_2017 : Option Results2017
  results_2022 : Option Results2022
  prediction_2027 : Option Prediction2027

/-- One candidate row of an election year record. -/
structure CandidateResult where
  name : String
  party : String
  votes : ℚ
  percentage : ℚ

/-- One province row of the 2002 `regional` breakdown. -/
structure RegionRow where
  Kibaki : ℚ
  Kenyatta : ℚ
  Nyachae : ℚ

/-- One record of `election_data.json['elections']`; `regional` is present
only for 2002, so it is optional. -/
structure ElectionRecord where
  registered_voters : ℚ
  votes_cast : ℚ
  turnout : ℚ
  candidates : List CandidateResult
  regional : Option (List (String × RegionRow))

/-- One entry of `predictions_2027['scenarios']`. -/
structure Scenario where
  name : String
  turnout : ℚ
  description : String

/-- The `predictions_2027` singleton of `election_data.json`. -/
structure Predictions2027 where
  total_projected_voters : ℚ
  new_voters : ℚ
  youth_percentage : ℚ
  scenarios : List Scenario
  factors : List String

/-- The whole `election_data.json` document. -/
structure ElectionData where
  elections : List (String × ElectionRecord)
  predictions_2027 : Predictions2027

/-- One entry of `county_data.json['regional_trends']`. -/
structure RegionalTrend where
  counties : List String
  trend : String
  key_factor : String

/-- The whole `county_data.json` document. -/
structure CountyData where
  counties : List (String × CountyRecord)
  regional_trends : List (String × RegionalTrend)

/-- The parsed `kenya_counties.geojson` document, reduced to the `COUNTY`
property of each feature (the only part the dashboard joins on). -/
structure Geojson where
  features : List String

/-! ### Data Loader (`app.py` 87-94) -/

/-- `load_geojson` (`app.py` 87-94): `try: ... return json.load(f) except
Exception: return None`.  The argument is the outcome of opening and parsing
the file; any failure (missing file, malformed content) is the `error` case
and yields `none` instead of propagating. -/
def load_geojson (raw : Except String Geojson) : Option Geojson :=
  match raw with
  | Except.ok g => some g
  | Except.error _ => none

/-! ### Interactive Map rows (`app.py` 211-229) -/

/-- One `county_dict` of the Interactive Map `map_data` loop. -/
structure MapRow where
  County : String
  Display_Name : String
  Swing_Potential : String
  Ruto_2022 : ℚ
  Odinga_2022 : ℚ
  Projected_Voters_2027 : ℚ
  Youth_Percentage : ℚ
  Turnout_2022 : ℚ
  Trend_2027 : String

/-- The `county_dict` construction (`app.py` 214-227).  All accesses are
direct subscripts (`county_info['prediction_2027']['swing_potential']`,
`county_info['results_2022']['Ruto']`, ...), so a missing key raises
`KeyError`: modelled by `none`. -/
def mapRow (county_name : String) (county_info : CountyRecord) : Option MapRow := do
  let pred ← county_info.prediction_2027
  let sp ← pred.swing_potential
  let r22 ← county_info.results_2022
  let ruto ← r22.Ruto
  let oding ← r22.Odinga
  let pv ← pred.projected_voters
  let yp ← county_info.youth_percentage
  let t22 ← r22.turnout
  let tr ← pred.trend
  pure { County := get_geojson_name county_name, Display_Name := county_name,
         Swing_Potential := sp, Ruto_2022 := ruto, Odinga_2022 := oding,
         Projected_Voters_2027 := pv, Youth_Percentage := yp,
         Turnout_2022 := t22, Trend_2027 := tr }

/-- The `for county_name, county_info in counties.items()` loop building
`map_data`: the first raised `KeyError` aborts the whole loop (`none`). -/
def mapRows : List (String × CountyRecord) → Option (List MapRow)
  | [] => some []
  | p :: rest => do
    let r ← mapRow p.1 p.2
    let rs ← mapRows rest
    pure (r :: rs)

/-! ### County Analysis (`app.py` 626-739) -/

/-- `county_info.get('results_2022', {}).get('turnout', 0)` (`app.py` 649). -/
def turnout_2022 (county_info : CountyRecord) : ℚ :=
  ((county_info.results_2022.getD Results2022.empty).turnout).getD 0

/-- `county_info.get('results_2017', {}).get('turnout', 0)` (`app.py` 650). -/
def turnout_2017 (county_info : CountyRecord) : ℚ :=
  ((county_info.results_2017.getD Results2017.empty).turnout).getD 0

/-- `turnout_change = turnout_2022 - turnout_2017` (`app.py` 651). -/
def turnout_change (county_info : CountyRecord) : ℚ :=
  turnout_2022 county_info - turnout_2017 county_info

/-- `gov_shift = results_2022.get('Ruto', 0) - results_2017.get('Kenyatta', 0)`
(`app.py` 730). -/
def gov_shift (county_info : CountyRecord) : ℚ :=
  ((county_info.results_2022.getD Results2022.empty).Ruto).getD 0
    - ((county_info.results_2017.getD Results2017.empty).Kenyatta).getD 0

/-- `opp_shift = results_2022.get('Odinga', 0) - results_2017.get('Odinga', 0)`
(`app.py` 731). -/
def opp_shift (county_info : CountyRecord) : ℚ :=
  ((county_info.results_2022.getD Results2022.empty).Odinga).getD 0
    - ((county_info.results_2017.getD Results2017.empty).Odinga).getD 0

/-- The metrics the County Analysis view derives for the selected county. -/
structure CountyMetrics where
  population : ℚ
  registered_voters : ℚ
  youth : ℚ
  turnoutChange : ℚ
  govShift : ℚ
  oppShift : ℚ

/-- County Analysis for one selected county (`app.py` 638-739); the initial
`county_data['counties'][selected_county]` is a direct subscript. -/
def countyAnalysisView (c : CountyData) (selected_county : String) :
    Option CountyMetrics :=
  (c.counties.lookup selected_county).map (fun county_info =>
    { population := county_info.population.getD 0
      registered_voters := county_info.registered_voters_2022.getD 0
      youth := county_info.youth_percentage.getD 0
      turnoutChange := turnout_change county_info
      govShift := gov_shift county_info
      oppShift := opp_shift county_info })

/-! ### County Predictions 2027 (`app.py` 742-875) -/

/-- `county_info.get('prediction_2027', {})` (`app.py` 753, 775, 813, ...). -/
def predOf (county_info : CountyRecord) : Prediction2027 :=
  county_info.prediction_2027.getD Prediction2027.empty

/-- One row of `county_pred_data` (`app.py` 774-783): all accesses use
`.get(..., 0)` / `.get(..., 'Unknown')` defaults. -/
structure PredRow where
  County : String
  projected_voters : ℚ
  new_youth_voters : ℚ
  likely_turnout : ℚ
  trend : String
  swing_potential : String

/-- The `county_pred_data` row for one county (`app.py` 775-783). -/
def predRow (county_name : String) (county_info : CountyRecord) : PredRow :=
  { County := county_name
    projected_voters := (predOf county_info).projected_voters.getD 0
    new_youth_voters := (predOf county_info).new_youth_voters.getD 0
    likely_turnout := (predOf county_info).likely_turnout.getD 0
    trend := (predOf county_info).trend.getD "Unknown"
    swing_potential := (predOf county_info).swing_potential.getD "Unknown" }

/-- The full `county_pred_data` list (`app.py` 773-783). -/
def predRows (c : CountyData) : List PredRow :=
  c.counties.map (fun p => predRow p.1 p.2)

/-- `.get('prediction_2027', {}).get('swing_potential', '')`
(`app.py` 761, 845). -/
def swingD (county_info : CountyRecord) : String :=
  (predOf county_info).swing_potential.getD ""

/-- `.get('prediction_2027', {}).get('swing_potential', 'Unknown')`
(`app.py` 813). -/
def swingU (county_info : CountyRecord) : String :=
  (predOf county_info).swing_potential.getD "Unknown"

/-- `swing_counties = sum([1 for c in counties if ... in ['High', 'Very High']])`
(`app.py` 760-761). -/
def swing_counties (c : CountyData) : Nat :=
  ((c.counties.filter
      (fun p => swingD p.2 == "High" || swingD p.2 == "Very High")).map
    (fun _ => (1 : Nat))).sum

/-- `battleground = [c for c in counties if ... in ['Very High', 'High']]`
(`app.py` 844-845). -/
def battleground (c : CountyData) : List String :=
  (c.counties.filter
      (fun p => swingD p.2 == "Very High" || swingD p.2 == "High")).map
    (fun p => p.1)

/-- The keys of the `swing_groups` dict, in its insertion order
(`app.py` 804-810). -/
def SWING_LEVELS : List String := ["Very High", "High", "Medium", "Low", "Very Low"]

/-- The counties appended to `swing_groups[level]` (`app.py` 812-815): a
county lands in bucket `level` exactly when its (defaulted) swing potential
equals `level`, in source iteration order. -/
def swingGroup (c : CountyData) (level : String) : List (String × CountyRecord) :=
  c.counties.filter (fun p => swingU p.2 == level)

/-- The county names stored in `swing_groups[level]`. -/
def swingGroupNames (c : CountyData) (level : String) : List String :=
  (swingGroup c level).map (fun p => p.1)

/-! ### Historical Results, Turnout Trends, Regional Patterns -/

/-- Historical Results view (`app.py` 439-493): `data['elections'][str(year)]`
is a direct subscript; the view flattens the record into header metrics plus
the candidate rows. -/
def historicalView (d : ElectionData) (selected_year : Nat) :
    Option (ℚ × ℚ × ℚ × List CandidateResult) :=
  (d.elections.lookup (toString selected_year)).map (fun e =>
    (e.registered_voters, e.votes_cast, e.turnout, e.candidates))

/-- The `turnouts` list built by the Turnout Trends year loop
(`app.py` 504-509), over exactly the five years 2002, 2007, 2013, 2017, 2022,
in that order; each `data['elections'][str(year)]` is a direct subscript. -/
def turnoutsOf (d : ElectionData) : Option (List ℚ) := do
  let e1 ← d.elections.lookup "2002"
  let e2 ← d.elections.lookup "2007"
  let e3 ← d.elections.lookup "2013"
  let e4 ← d.elections.lookup "2017"
  let e5 ← d.elections.lookup "2022"
  pure [e1.turnout, e2.turnout, e3.turnout, e4.turnout, e5.turnout]

/-- `sum(turnouts)/len(turnouts)` (`app.py` 554). -/
def meanTurnout (turnouts : List ℚ) : ℚ :=
  turnouts.sum / (turnouts.length : ℚ)

/-- Regional Patterns rows (`app.py` 577-583): `data['elections']['2002']`
and `election_2002['regional']` are direct subscripts; the rows are one per
province of the regional breakdown, in source order. -/
def regionalPatternsRows (d : ElectionData) :
    Option (List (String × ℚ × ℚ × ℚ)) := do
  let election_2002 ← d.elections.lookup "2002"
  let regional_data ← election_2002.regional
  pure (regional_data.map (fun p => (p.1, p.2.Kibaki, p.2.Kenyatta, p.2.Nyachae)))

/-! ### 2027 National Predictions (`app.py` 878-952) -/

/-- Python `int()` applied to a (here, exact-rational) quotient: truncation
toward zero. -/
def pyInt (q : ℚ) : ℤ := if 0 ≤ q then ⌊q⌋ else ⌈q⌉

/-- `int(predictions['total_projected_voters'] * scenario['turnout'] / 100)`
(`app.py` 951). -/
def projected_votes (total_projected_voters turnout : ℚ) : ℤ :=
  pyInt (total_projected_voters * turnout / 100)

/-- The Scenario Analysis rows (`app.py` 947-952): per scenario its name,
turnout and projected votes cast. -/
def nationalView (d : ElectionData) : List (String × ℚ × ℤ) :=
  d.predictions_2027.scenarios.map (fun s =>
    (s.name, s.turnout,
      projected_votes d.predictions_2027.total_projected_voters s.turnout))

/-! ### View Selector (`app.py` 102-106 and the page dispatch) -/

/-- The eight fixed views of the sidebar radio (`app.py` 102-106). -/
inductive Page where
  | Overview
  | InteractiveMap
  | HistoricalResults
  | TurnoutTrends
  | RegionalPatterns
  | CountyAnalysis
  | CountyPredictions2027
  | NationalPredictions2027
deriving DecidableEq

/-- The data-shaping outcome of rendering one page.  `mapUnavailable` is the
explicit "GeoJSON file not found" message (`app.py` 197-199); `none` results
model a view aborted by a raised `KeyError`. -/
inductive ViewOutput where
  | overview
  | mapUnavailable
  | mapView (rows : List MapRow)
  | mapError
  | historical (sel : Option (ℚ × ℚ × ℚ × List CandidateResult))
  | turnout (t : Option (List ℚ))
  | regional (rows : Option (List (String × ℚ × ℚ × ℚ)))
  | countyAnalysis (m : Option CountyMetrics)
  | countyPredictions (rows : List PredRow) (swing : Nat) (battle : List String)
  | national (scen : List (String × ℚ × ℤ))

/-- The flat `if page == ...` dispatch (`app.py` 120-1008), reduced to the
data each branch derives.  Only the Interactive Map branch consults the
boundary document: `if kenya_geojson is None` it shows the unavailability
message (`app.py` 197-199), otherwise it builds the `map_data` rows. -/
def renderPage (p : Page) (selected_year : Nat) (selected_county : String)
    (d : ElectionData) (c : CountyData) (g : Option Geojson) : ViewOutput :=
  match p with
  | Page.Overview => ViewOutput.overview
  | Page.InteractiveMap =>
    match g with
    | none => ViewOutput.mapUnavailable
    | some _ =>
      match mapRows c.counties with
      | none => ViewOutput.mapError
      | some rows => ViewOutput.mapView rows
  | Page.HistoricalResults => ViewOutput.historical (historicalView d selected_year)
  | Page.TurnoutTrends => ViewOutput.turnout (turnoutsOf d)
  | Page.RegionalPatterns => ViewOutput.regional (regionalPatternsRows d)
  | Page.CountyAnalysis => ViewOutput.countyAnalysis (countyAnalysisView c selected_county)
  | Page.CountyPredictions2027 =>
    ViewOutput.countyPredictions (predRows c) (swing_counties c) (battleground c)
  | Page.NationalPredictions2027 => ViewOutput.national (nationalView d)

/-! ### Concrete example documents (used to instantiate the theorems) -/

/-- An election year record with a given turnout and regional field. -/
def exElection (t : ℚ) (reg : Option (List (String × RegionRow))) : ElectionRecord :=
  { registered_voters := 1000, votes_cast := 500, turnout := t,
    candidates := [], regional := reg }

/-- A single turnout scenario. -/
def exScenario : Scenario :=
  { name := "High Youth Turnout", turnout := 75, description := "youth surge" }

/-- A national predictions singleton. -/
def exPredictions : Predictions2027 :=
  { total_projected_voters := 27820000, new_voters := 5700000,
    youth_percentage := 65, scenarios := [exScenario], factors := [] }

/-- An election-history document carrying the five historical years with the
real turnouts, the 2002 record with an empty regional breakdown. -/
def exData : ElectionData :=
  { elections :=
      [("2002", exElection 57.18 (some [])),
       ("2007", exElection 69.23 none),
       ("2013", exElection 85.91 none),
       ("2017", exElection 79.51 none),
       ("2022", exElection 64.77 none)],
    predictions_2027 := exPredictions }

/-- An election-history document whose 2002 record has no `regional` key. -/
def exDataNoRegional : ElectionData :=
  { elections := [("2002", exElection 57.18 none)],
    predictions_2027 := exPredictions }

/-- A 2017 result with the figures of the spec's worked example. -/
def exR17 : Results2017 :=
  { Kenyatta := some 54.0, Odinga := some 44.9, turnout := some 77.0 }

/-- A 2022 result with the figures of the spec's worked example. -/
def exR22 : Results2022 :=
  { Ruto := some 50.5, Odinga := some 48.8, turnout := some 65.0 }

/-- A fully populated 2027 prediction. -/
def exPred : Prediction2027 :=
  { projected_voters := some 600000, new_youth_voters := some 100000,
    likely_turnout := some 70, swing_potential := some "High",
    trend := some "Rising" }

/-- A fully populated county record. -/
def exCounty : CountyRecord :=
  { population := some 1000000, registered_voters_2022 := some 500000,
    youth_percentage := some 65, results_2017 := some exR17,
    results_2022 := some exR22, prediction_2027 := some exPred }

/-- A county record lacking both `results_2017` and `prediction_2027`. -/
def exCountyNoPred : CountyRecord :=
  { population := some 1000000, registered_voters_2022 := some 500000,
    youth_percentage := some 65, results_2017 := none,
    results_2022 := some exR22, prediction_2027 := none }

/-- A one-county county document. -/
def exCountyData : CountyData :=
  { counties := [("Nairobi", exCounty)], regional_trends := [] }

/-- A county record whose swing potential is `Medium`. -/
def exSwingCounty : CountyRecord :=
  { population := none, registered_voters_2022 := none,
    youth_percentage := none, results_2017 := none, results_2022 := none,
    prediction_2027 := some
      { projected_voters := none, new_youth_voters := none,
        likely_turnout := none, swing_potential := some "Medium",
        trend := none } }

/-- A well-formed county document with exactly 47 counties. -/
def exCounties47 : CountyData :=
  { counties := List.replicate 47 ("Nairobi", exSwingCounty),
    regional_trends := [] }

/-- A boundary document with a single feature. -/
def exGeojson : Geojson := { features := ["Nairobi"] }

/-! ### Helper lemmas -/

/-- Summing the constant 1 over a list counts its length. -/
theorem sum_map_ones {α : Type} (l : List α) :
    (l.map (fun _ => (1 : Nat))).sum = l.length := by
  induction l with
  | nil => rfl
  | cons a as ih => simp [ih, Nat.add_comm]

/-- A sum of pointwise sums splits. -/
theorem sum_map_split (levels : List String) (f g : String → Nat) :
    (levels.map (fun l => f l + g l)).sum
      = (levels.map f).sum + (levels.map g).sum := by
  induction levels with
  | nil => rfl
  | cons a as ih => simp [ih]; omega

/-- Summing an indicator of equality over a list counts occurrences. -/
theorem sum_map_indicator (a : String) (levels : List String) :
    (levels.map (fun l => if a = l then (1 : Nat) else 0)).sum
      = levels.count a := by
  induction levels with
  | nil => rfl
  | cons b bs ih =>
    by_cases h : a = b
    · subst h
      simp [List.count_cons, ih, Nat.add_comm]
    · simp [List.count_cons, ih, h, Ne.symm h]

/-- Bucketing a list by a key drawn from a duplicate-free list of levels
preserves the total length. -/
theorem sum_length_filter_eq {α : Type} (xs : List α) (key : α → String)
    (levels : List String) (hnd : levels.Nodup)
    (hall : ∀ x ∈ xs, key x ∈ levels) :
    (levels.map (fun l => (xs.filter (fun x => key x == l)).length)).sum
      = xs.length := by
  induction xs with
  | nil => simp
  | cons x xs ih =>
    have hx : key x ∈ levels := hall x (List.mem_cons_self _ _)
    have hxs : ∀ y ∈ xs, key y ∈ levels := fun y hy =>
      hall y (List.mem_cons_of_mem _ hy)
    have step : ∀ l : String,
        ((x :: xs).filter (fun z => key z == l)).length
          = (xs.filter (fun z => key z == l)).length
            + (if key x = l then 1 else 0) := by
      intro l
      by_cases h : key x = l <;> simp [List.filter_cons, h]
    calc (levels.map (fun l => ((x :: xs).filter (fun z => key z == l)).length)).sum
        = (levels.map (fun l => (xs.filter (fun z => key z == l)).length
            + (if key x = l then 1 else 0))).sum := by
          simp only [step]
      _ = (levels.map (fun l => (xs.filter (fun z => key z == l)).length)).sum
            + (levels.map (fun l => if key x = l then 1 else 0)).sum :=
          sum_map_split levels _ _
      _ = xs.length + levels.count (key x) := by
          rw [ih hxs, sum_map_indicator]
      _ = xs.length + 1 := by rw [List.count_eq_one_of_mem hnd hx]
      _ = (x :: xs).length := by simp [Nat.add_comm]

/-! ### Claims -/

/-- Claim C1 counterexample: the round trip is NOT the identity on every
name.  For the geographic-side alias name "Keiyo-Marakwet",
`get_geojson_name` leaves it unchanged (it is not a key of
`COUNTY_NAME_MAP`) and `get_data_name` then maps it to "Elgeyo Marakwet". -/
theorem c1_roundtrip_counterexample :
    get_data_name (get_geojson_name "Keiyo-Marakwet") ≠ "Keiyo-Marakwet" := by
  decide

/-- Claim C1 (amended): `get_data_name (get_geojson_name S) = S` holds for
every name `S` that is not itself one of the two geographic-side alias names
"Keiyo-Marakwet" and "Tharaka" (on those, the round trip returns the
statistical-side name instead). -/
theorem c1_roundtrip (S : String)
    (h1 : S ≠ "Keiyo-Marakwet") (h2 : S ≠ "Tharaka") :
    get_data_name (get_geojson_name S) = S := by
  by_cases hA : S = "Elgeyo Marakwet"
  · subst hA; rfl
  · by_cases hB : S = "Tharaka Nithi"
    · subst hB; rfl
    · have eA : (S == "Elgeyo Marakwet") = false := beq_eq_false_iff_ne.mpr hA
      have eB : (S == "Tharaka Nithi") = false := beq_eq_false_iff_ne.mpr hB
      have eC : (S == "Keiyo-Marakwet") = false := beq_eq_false_iff_ne.mpr h1
      have eD : (S == "Tharaka") = false := beq_eq_false_iff_ne.mpr h2
      simp [get_geojson_name, get_data_name, COUNTY_NAME_MAP,
        GEOJSON_TO_DATA_MAP, List.lookup, eA, eB, eC, eD]

/-- Claim C1 witness: the round trip at the unaliased name "Nairobi". -/
theorem c1_roundtrip_witness :
    get_data_name (get_geojson_name "Nairobi") = "Nairobi" :=
  c1_roundtrip "Nairobi" (by decide) (by decide)

/-- Claim C9: for every alias pair (S, G) in the table,
`get_geojson_name S = G` and `get_data_name G = S`; any name missing from
the respective table is returned unchanged.  Both functions are total by
construction. -/
theorem c9_name_resolver :
    (∀ p ∈ COUNTY_NAME_MAP,
        get_geojson_name p.1 = p.2 ∧ get_data_name p.2 = p.1) ∧
    (∀ N, N ∉ COUNTY_NAME_MAP.map Prod.fst → get_geojson_name N = N) ∧
    (∀ N, N ∉ GEOJSON_TO_DATA_MAP.map Prod.fst → get_data_name N = N) := by
  refine ⟨?_, ?_, ?_⟩
  · intro p hp
    simp [COUNTY_NAME_MAP] at hp
    rcases hp with rfl | rfl <;> exact ⟨rfl, rfl⟩
  · intro N hN
    simp [COUNTY_NAME_MAP] at hN
    push_neg at hN
    simp [get_geojson_name, COUNTY_NAME_MAP, List.lookup,
      beq_eq_false_iff_ne.mpr hN.1, beq_eq_false_iff_ne.mpr hN.2]
  · intro N hN
    simp [GEOJSON_TO_DATA_MAP, COUNTY_NAME_MAP] at hN
    push_neg at hN
    simp [get_data_name, GEOJSON_TO_DATA_MAP, COUNTY_NAME_MAP, List.lookup,
      beq_eq_false_iff_ne.mpr hN.1, beq_eq_false_iff_ne.mpr hN.2]

/-- Claim C9 witness: the first alias pair and the unaliased name "Nairobi". -/
theorem c9_name_resolver_witness :
    (get_geojson_name "Elgeyo Marakwet" = "Keiyo-Marakwet" ∧
      get_data_name "Keiyo-Marakwet" = "Elgeyo Marakwet") ∧
    get_geojson_name "Nairobi" = "Nairobi" ∧
    get_data_name "Nairobi" = "Nairobi" :=
  ⟨c9_name_resolver.1 ("Elgeyo Marakwet", "Keiyo-Marakwet") (by decide),
   c9_name_resolver.2.1 "Nairobi" (by decide),
   c9_name_resolver.2.2 "Nairobi" (by decide)⟩

/-- Claim C10: the "Swing Counties" metric count equals the length of the
`battleground` list computed later on the same page: the two independent
high-swing computations always agree, on every county document. -/
theorem c10_swing_equals_battleground (c : CountyData) :
    swing_counties c = (battleground c).length := by
  unfold swing_counties battleground
  rw [sum_map_ones, List.length_map]
  congr 1
  apply List.filter_congr
  intro p _
  exact Bool.or_comm _ _

/-- Claim C2 counterexample: a county lacking `prediction_2027` (the claim's
own example of a missing optional field) makes the Interactive Map
per-county row construction raise a `KeyError` (modelled by `none`) instead
of rendering zero/"Unknown" values. -/
theorem c2_missing_field_counterexample :
    mapRow "Nairobi" exCountyNoPred = none := rfl

/-- Claim C2 (amended): for a county record lacking `results_2017` and
`prediction_2027`, the County Analysis metrics and the County Predictions
row never raise: every dependent numeric metric falls back to 0 and every
categorical field to "Unknown" — but the Interactive Map row construction,
which uses direct subscripts, aborts (`none`) on such a county. -/
theorem c2_missing_field_defaults (n : String) (ci : CountyRecord)
    (h17 : ci.results_2017 = none) (hp : ci.prediction_2027 = none) :
    turnout_change ci = turnout_2022 ci ∧
    gov_shift ci = ((ci.results_2022.getD Results2022.empty).Ruto).getD 0 ∧
    opp_shift ci = ((ci.results_2022.getD Results2022.empty).Odinga).getD 0 ∧
    predRow n ci = { County := n, projected_voters := 0, new_youth_voters := 0,
                     likely_turnout := 0, trend := "Unknown",
                     swing_potential := "Unknown" } ∧
    mapRow n ci = none := by
  refine ⟨?_, ?_, ?_, ?_, ?_⟩ <;>
    simp [turnout_change, turnout_2022, turnout_2017, gov_shift, opp_shift,
      predRow, predOf, mapRow, h17, hp, Results2017.empty, Prediction2027.empty]

/-- Claim C2 witness: the amended statement at the concrete county record
lacking both optional result objects. -/
theorem c2_missing_field_defaults_witness :
    turnout_change exCountyNoPred = turnout_2022 exCountyNoPred ∧
    gov_shift exCountyNoPred
      = ((exCountyNoPred.results_2022.getD Results2022.empty).Ruto).getD 0 ∧
    opp_shift exCountyNoPred
      = ((exCountyNoPred.results_2022.getD Results2022.empty).Odinga).getD 0 ∧
    predRow "Nairobi" exCountyNoPred
      = { County := "Nairobi", projected_voters := 0, new_youth_voters := 0,
          likely_turnout := 0, trend := "Unknown",
          swing_potential := "Unknown" } ∧
    mapRow "Nairobi" exCountyNoPred = none :=
  c2_missing_field_defaults "Nairobi" exCountyNoPred rfl rfl

/-- Claim C3: a failed boundary-document load yields `none` instead of
raising; every view other than Interactive Map renders identically whatever
the boundary document is (it reads only the two statistical documents); and
the Interactive Map view alone degrades to the explicit unavailability
message when the boundary document is `none`. -/
theorem c3_geojson_degradation :
    (∀ e : String, load_geojson (Except.error e) = none) ∧
    (∀ (p : Page) (y : Nat) (cs : String) (d : ElectionData) (c : CountyData)
        (g g' : Option Geojson), p ≠ Page.InteractiveMap →
        renderPage p y cs d c g = renderPage p y cs d c g') ∧
    (∀ (y : Nat) (cs : String) (d : ElectionData) (c : CountyData),
        renderPage Page.InteractiveMap y cs d c none
          = ViewOutput.mapUnavailable) := by
  refine ⟨fun _ => rfl, ?_, fun _ _ _ _ => rfl⟩
  intro p y cs d c g g' hp
  cases p
  case InteractiveMap => exact absurd rfl hp
  all_goals rfl

/-- Claim C3 witness: a failing load, the Overview page with and without the
boundary document, and the Interactive Map page without it. -/
theorem c3_geojson_degradation_witness :
    load_geojson (Except.error "missing file") = none ∧
    renderPage Page.Overview 2022 "Nairobi" exData exCountyData (some exGeojson)
      = renderPage Page.Overview 2022 "Nairobi" exData exCountyData none ∧
    renderPage Page.InteractiveMap 2022 "Nairobi" exData exCountyData none
      = ViewOutput.mapUnavailable :=
  ⟨c3_geojson_degradation.1 "missing file",
   c3_geojson_degradation.2.1 Page.Overview 2022 "Nairobi" exData exCountyData
     (some exGeojson) none (by decide),
   c3_geojson_degradation.2.2 2022 "Nairobi" exData exCountyData⟩

/-- Claim C4 counterexample: when the 2002 record carries no `regional`
field at all, the Regional Patterns view raises a `KeyError` on
`election_2002['regional']` (modelled by `none`): it does not produce zero
rows. -/
theorem c4_no_regional_counterexample :
    regionalPatternsRows exDataNoRegional = none := rfl

/-- Claim C4 (amended): when the 2002 record's `regional` breakdown is
present but empty, the Regional Patterns view produces zero rows and no
error; a record with the `regional` key entirely absent instead raises a
`KeyError` (the counterexample above). -/
theorem c4_empty_regional (d : ElectionData) (e : ElectionRecord)
    (h2002 : d.elections.lookup "2002" = some e) (hreg : e.regional = some []) :
    regionalPatternsRows d = some [] := by
  simp [regionalPatternsRows, h2002, hreg]

/-- Claim C4 witness: the example document whose 2002 record has an empty
regional breakdown. -/
theorem c4_empty_regional_witness : regionalPatternsRows exData = some [] :=
  c4_empty_regional exData (exElection 57.18 (some [])) rfl rfl

/-- Claim C5: on a well-formed county document (every swing-potential
category one of the five levels) with 47 counties, the `swing_groups`
bucketing is an exhaustive and disjoint partition: the five bucket sizes sum
to exactly 47, and every county lands in exactly one bucket. -/
theorem c5_swing_partition (c : CountyData)
    (h47 : c.counties.length = 47)
    (hw : ∀ p ∈ c.counties, swingU p.2 ∈ SWING_LEVELS) :
    (SWING_LEVELS.map (fun l => (swingGroupNames c l).length)).sum = 47 ∧
    (∀ p ∈ c.counties, ∃! l, l ∈ SWING_LEVELS ∧ p ∈ swingGroup c l) := by
  constructor
  · have h := sum_length_filter_eq c.counties (fun p => swingU p.2)
      SWING_LEVELS (by decide) hw
    simpa [swingGroupNames, swingGroup, h47] using h
  · intro p hp
    refine ⟨swingU p.2, ⟨hw p hp, ?_⟩, ?_⟩
    · simp [swingGroup, List.mem_filter, hp]
    · rintro l ⟨_, hmem⟩
      simp [swingGroup, List.mem_filter] at hmem
      exact hmem.2.symm

/-- Claim C5 witness: a well-formed 47-county document. -/
theorem c5_swing_partition_witness :
    (SWING_LEVELS.map (fun l => (swingGroupNames exCounties47 l).length)).sum
      = 47 ∧
    (∀ p ∈ exCounties47.counties,
        ∃! l, l ∈ SWING_LEVELS ∧ p ∈ swingGroup exCounties47 l) :=
  c5_swing_partition exCounties47 (by simp [exCounties47])
    (by
      intro p hp
      simp [exCounties47, List.eq_of_mem_replicate hp,
        swingU, predOf, exSwingCounty, SWING_LEVELS])

/-- Claim C6: the Turnout Trends `turnouts` list covers exactly the five
historical years; the computed mean is the unweighted arithmetic mean
(`sum/length`), invariant under any reordering of the inputs; and on the real
inputs [57.18, 69.23, 85.91, 79.51, 64.77] it equals exactly 71.32. -/
theorem c6_turnout_mean :
    (∀ (d : ElectionData) (ts : List ℚ), turnoutsOf d = some ts →
        ts.length = 5 ∧ meanTurnout ts = ts.sum / 5) ∧
    (∀ l l' : List ℚ, l.Perm l' → meanTurnout l = meanTurnout l') ∧
    meanTurnout [57.18, 69.23, 85.91, 79.51, 64.77] = 71.32 := by
  refine ⟨?_, ?_, ?_⟩
  · intro d ts h
    simp only [turnoutsOf, Option.bind_eq_some, bind, Option.bind] at h
    obtain ⟨e1, h1, h⟩ := Option.bind_eq_some.mp h
    obtain ⟨e2, h2, h⟩ := Option.bind_eq_some.mp h
    obtain ⟨e3, h3, h⟩ := Option.bind_eq_some.mp h
    obtain ⟨e4, h4, h⟩ := Option.bind_eq_some.mp h
    obtain ⟨e5, h5, h⟩ := Option.bind_eq_some.mp h
    obtain rfl : [e1.turnout, e2.turnout, e3.turnout, e4.turnout, e5.turnout]
        = ts := Option.some.injEq _ _ ▸ h
    exact ⟨rfl, by norm_num [meanTurnout]⟩
  · intro l l' h
    simp [meanTurnout, h.sum_eq, h.length_eq]
  · norm_num [meanTurnout, List.sum_cons]

/-- Claim C6 witness: the real election-history document and a concrete
reordering of a two-element list. -/
theorem c6_turnout_mean_witness :
    (([57.18, 69.23, 85.91, 79.51, 64.77] : List ℚ).length = 5 ∧
      meanTurnout [57.18, 69.23, 85.91, 79.51, 64.77]
        = ([57.18, 69.23, 85.91, 79.51, 64.77] : List ℚ).sum / 5) ∧
    meanTurnout [(1 : ℚ), 2] = meanTurnout [2, 1] :=
  ⟨c6_turnout_mean.1 exData _ rfl,
   c6_turnout_mean.2.1 _ _ (List.Perm.swap 2 1 [])⟩

/-- Claim C7: for every county whose 2017 and 2022 result objects carry the
relevant fields, the government coalition shift is (2022 Ruto − 2017
Kenyatta) and the opposition shift is (2022 Odinga − 2017 Odinga); on the
worked example (Kenyatta 54.0, Odinga 44.9 in 2017; Ruto 50.5, Odinga 48.8
in 2022) they equal −3.5 and +3.9. -/
theorem c7_vote_shift :
    (∀ (ci : CountyRecord) (r17 : Results2017) (r22 : Results2022),
        ci.results_2017 = some r17 → ci.results_2022 = some r22 →
        ∀ k o1 ru o2 : ℚ, r17.Kenyatta = some k → r17.Odinga = some o1 →
          r22.Ruto = some ru → r22.Odinga = some o2 →
          gov_shift ci = ru - k ∧ opp_shift ci = o2 - o1) ∧
    gov_shift exCounty = -3.5 ∧ opp_shift exCounty = 3.9 := by
  refine ⟨?_, ?_, ?_⟩
  · intro ci r17 r22 h17 h22 k o1 ru o2 hk ho1 hru ho2
    constructor <;> simp [gov_shift, opp_shift, h17, h22, hk, ho1, hru, ho2]
  · norm_num [gov_shift, exCounty, exR17, exR22]
  · norm_num [opp_shift, exCounty, exR17, exR22]

/-- Claim C7 witness: the fully populated example county. -/
theorem c7_vote_shift_witness :
    gov_shift exCounty = 50.5 - 54.0 ∧ opp_shift exCounty = 48.8 - 44.9 :=
  c7_vote_shift.1 exCounty exR17 exR22 rfl rfl 54.0 44.9 50.5 48.8
    rfl rfl rfl rfl

/-- Claim C8: with the data-model invariant that voter counts and turnout
percentages are nonnegative, the projected votes cast of every scenario
equals `floor(total_projected_voters * turnout / 100)` (Python `int()`
truncation coincides with `floor` there), and every Scenario Analysis row
carries exactly that value for its scenario's turnout. -/
theorem c8_projected_votes :
    (∀ total turnout : ℚ, 0 ≤ total → 0 ≤ turnout →
        projected_votes total turnout = ⌊total * turnout / 100⌋) ∧
    (∀ (d : ElectionData) (x : String × ℚ × ℤ), x ∈ nationalView d →
        x.2.2 = projected_votes d.predictions_2027.total_projected_voters
          x.2.1) := by
  constructor
  · intro total turnout h1 h2
    have h : (0 : ℚ) ≤ total * turnout / 100 := by positivity
    simp [projected_votes, pyInt, h]
  · intro d x hx
    simp [nationalView, List.mem_map] at hx
    obtain ⟨s, _, rfl⟩ := hx
    rfl

/-- Claim C8 witness: the example national-predictions document's single
scenario (27,820,000 projected voters at 75% turnout). -/
theorem c8_projected_votes_witness :
    projected_votes 27820000 75 = ⌊(27820000 : ℚ) * 75 / 100⌋ ∧
    (exScenario.name, exScenario.turnout,
        projected_votes exPredictions.total_projected_voters
          exScenario.turnout).2.2
      = projected_votes exData.predictions_2027.total_projected_voters
          (exScenario.name, exScenario.turnout,
            projected_votes exPredictions.total_projected_voters
              exScenario.turnout).2.1 :=
  ⟨c8_projected_votes.1 27820000 75 (by norm_num) (by norm_num),
   c8_projected_votes.2 exData
     (exScenario.name, exScenario.turnout,
       projected_votes exPredictions.total_projected_voters exScenario.turnout)
     (by simp [nationalView, exData, exPredictions])⟩
